import Mathlib

/-!
Verification of the no-show predictor (src/noshow_predictor.py) against its
natural-language specification.  Python/pandas/numpy operations are shallowly
embedded: element-wise dataframe operations become scalar Lean functions over
`ℤ`/`ℚ`, fallible library calls return `Option`/`Except`, and the mutable
predictor/server state is passed explicitly.
-/

namespace NoShow

/-- Embeds `np.clip(x, lo, hi)`: values below `lo` become `lo`, above `hi`
become `hi` (for `lo ≤ hi` this is `max lo (min x hi)`). -/
def clipQ (x lo hi : ℚ) : ℚ :=
  max lo (min x hi)

/-- Embeds `pd.cut(df['Age'], bins=[0, 18, 35, 50, 65, 100], labels=[...])`
from `DataPreprocessor.feature_engineering` (line 135).  `pd.cut` with its
default `right=True` and `include_lowest=False` uses left-open right-closed
intervals `(0,18], (18,35], (35,50], (50,65], (65,100]`; a value outside every
interval (such as `Age = 0`) gets `NaN`, embedded as `none`. -/
def age_group (age : ℤ) : Option String :=
  if 0 < age ∧ age ≤ 18 then some "child"
  else if 18 < age ∧ age ≤ 35 then some "young_adult"
  else if 35 < age ∧ age ≤ 50 then some "adult"
  else if 50 < age ∧ age ≤ 65 then some "middle_aged"
  else if 65 < age ∧ age ≤ 100 then some "senior"
  else none

/-- Embeds the `total_conditions` column (line 139):
`Hipertension + Diabetes + Alcoholism + (Handcap > 0)`. -/
def total_conditions (hipertension diabetes alcoholism handcap : ℤ) : ℤ :=
  hipertension + diabetes + alcoholism + (if 0 < handcap then 1 else 0)

/-- Embeds the `risk_score` column (lines 143-149):
`(Age<18)*0.3 + (Age>80)*0.1 + (1-SMS_received)*0.4
 + np.clip(days_between/30.0, 0, 1)*0.3 + Scholarship*0.2`. -/
def risk_score (age sms_received days_between scholarship : ℤ) : ℚ :=
  (if age < 18 then 1 else 0) * (3/10)
    + (if 80 < age then 1 else 0) * (1/10)
    + (1 - (sms_received : ℚ)) * (4/10)
    + clipQ ((days_between : ℚ) / 30) 0 1 * (3/10)
    + (scholarship : ℚ) * (2/10)

/-- Embeds the `is_weekend` column (line 152):
`(appointment_weekday == 5) | (appointment_weekday == 6)`. -/
def is_weekend (appointment_weekday : ℤ) : ℤ :=
  if appointment_weekday = 5 ∨ appointment_weekday = 6 then 1 else 0

/-- Embeds the risk-tier expression of `NoShowPredictor.predict_single`
(line 302): `'High' if p > 0.6 else 'Medium' if p > 0.3 else 'Low'`. -/
def risk_level (p : ℚ) : String :=
  if p > 6/10 then "High" else if p > 3/10 then "Medium" else "Low"

/-- Embeds `sklearn.preprocessing.LabelEncoder.fit_transform`'s stored state
(line 168-169): `classes_` is the sorted list of distinct values seen. -/
def labelEncoderFit (xs : List String) : List String :=
  xs.dedup.insertionSort (· ≤ ·)

/-- Embeds `LabelEncoder.transform` on one value (line 172): the index of the
value in the stored `classes_`; an unseen value raises `ValueError`, embedded
as `none`. -/
def labelEncoderTransform (classes : List String) (x : String) : Option ℕ :=
  if x ∈ classes then some (classes.indexOf x) else none

/-- Embeds the fallback of `prepare_features` when no encoder was fitted
(line 175): `X['Gender'].map({'F': 0, 'M': 1}).fillna(0)`. -/
def genderFallback (g : String) : ℕ :=
  if g = "F" then 0 else if g = "M" then 1 else 0

/-- Gender encoding with `fit_encoders=False` (lines 170-175): when a Gender
encoder is stored from a previous fit it is reused via `transform` (failing on
unseen values); otherwise the fallback map applies. -/
def encodeGenderApply (enc : Option (List String)) (g : String) : Option ℕ :=
  match enc with
  | some classes => labelEncoderTransform classes g
  | none => some (genderFallback g)

/-- One record submitted to `predict_single` (a Python dict turned into a
one-row dataframe).  The raw dashboard fields are always present; the weekday
and engineered fields may be absent (`none`), in which case the column
selection `df[feature_cols]` in `prepare_features` raises `KeyError`. -/
structure PatientRecord where
  Age : ℤ
  Gender : String
  Scholarship : ℤ
  Hipertension : ℤ
  Diabetes : ℤ
  Alcoholism : ℤ
  Handcap : ℤ
  SMS_received : ℤ
  days_between : ℤ
  scheduled_weekday : Option ℤ
  appointment_weekday : Option ℤ
  total_conditions : Option ℤ
  risk_score : Option ℚ
  is_weekend : Option ℤ

/-- Failure modes of `prepare_features` on a single record: `KeyError` from
selecting an absent column, or `ValueError` from an unseen Gender value. -/
inductive PrepError where
  | missingColumn
  | unseenGender
deriving DecidableEq

/-- Embeds `DataPreprocessor.prepare_features` with `fit_encoders=False` on
the one-row frame built by `predict_single` (lines 156-180): select the 14
feature columns in the trained order (`KeyError` when one is absent), then
encode Gender. -/
def prepare_features_single (enc : Option (List String)) (r : PatientRecord) :
    Except PrepError (List ℚ) :=
  match r.scheduled_weekday, r.appointment_weekday, r.total_conditions,
      r.risk_score, r.is_weekend with
  | some sw, some aw, some tc, some rs, some iw =>
    match encodeGenderApply enc r.Gender with
    | none => .error .unseenGender
    | some gcode =>
      .ok [(r.Age : ℚ), (gcode : ℚ), (r.Scholarship : ℚ), (r.Hipertension : ℚ),
        (r.Diabetes : ℚ), (r.Alcoholism : ℚ), (r.Handcap : ℚ),
        (r.SMS_received : ℚ), (r.days_between : ℚ), (sw : ℚ), (aw : ℚ),
        (tc : ℚ), rs, (iw : ℚ)]
  | _, _, _, _, _ => .error .missingColumn

/-- A fitted classifier, reduced to the opaque capabilities `predict_single`
uses: `predict_proba` (probability of the positive class for one row) and
`predict` (hard label). -/
structure Model where
  predict_proba : List ℚ → ℚ
  predict : List ℚ → ℤ

/-- The evaluation metrics computed for one algorithm (lines 243-249). -/
structure Metrics where
  accuracy : ℚ
  precision : ℚ
  «recall» : ℚ
  f1 : ℚ
  roc_auc : ℚ

/-- One entry of the `results` dict of `train_models` (lines 251-256). -/
structure ModelResult where
  model : Model
  metrics : Metrics
  predictions : List ℤ
  probabilities : List ℚ

/-- The mutable state of a `NoShowPredictor` instance, together with the
Gender encoder of its `DataPreprocessor` (`self.preprocessor.label_encoders`,
which holds at most the one key `'Gender'`). -/
structure PredictorState where
  models : List (String × ModelResult)
  best_model : Option Model
  best_model_name : Option String
  gender_encoder : Option (List String)

/-- Failure modes of `predict_single`: the explicit untrained check
(`ValueError("Need to train the model first!")`, line 290) or an error raised
by `prepare_features`. -/
inductive PredictError where
  | untrained
  | badRecord (e : PrepError)
deriving DecidableEq

/-- The dict returned by `predict_single` (lines 299-303). -/
structure PredictionResult where
  no_show_probability : ℚ
  prediction : ℤ
  risk_level : String

/-- Embeds `NoShowPredictor.predict_single` (lines 287-303): first the
untrained-model check, then `prepare_features` in apply mode, then the best
model's `predict_proba`/`predict` and the risk tier. -/
def predict_single (st : PredictorState) (r : PatientRecord) :
    Except PredictError PredictionResult :=
  match st.best_model with
  | none => .error .untrained
  | some m =>
    match prepare_features_single st.gender_encoder r with
    | .error e => .error (.badRecord e)
    | .ok X =>
      .ok { no_show_probability := m.predict_proba X,
            prediction := m.predict X,
            risk_level := risk_level (m.predict_proba X) }

/-- The fixed algorithm menu of `train_models` (lines 194-222), in the
insertion order of the Python `models` dict. -/
def menu : List String :=
  ["Random Forest", "Gradient Boosting", "Logistic Regression", "SVM"]

/-- One step of Python's `max` with a key function: the running best is
replaced only when the new element's key is strictly greater. -/
def pyMaxStep {α : Type} (k : α → ℚ) (b y : α) : α :=
  if k b < k y then y else b

/-- Embeds Python's `max(iterable, key=k)` (line 262): scans left to right,
so the first element attaining the maximal key wins ties; an empty iterable
raises, embedded as `none`. -/
def pyMax {α : Type} (k : α → ℚ) : List α → Option α
  | [] => none
  | x :: xs => some (xs.foldl (pyMaxStep k) x)

/-- Embeds `NoShowPredictor.train_models` (lines 190-268).  The sklearn
fit / predict / metric computations for one algorithm are opaque library
calls, abstracted as `fit : String → Option ModelResult` (`none` embeds a
raised exception).  The loop accumulates results in menu order; a raised fit
aborts the whole call with the predictor state untouched; on success the
winner by `roc_auc` and all results are stored. -/
def train_models (fit : String → Option ModelResult) (st : PredictorState) :
    Except Unit (PredictorState × List (String × ModelResult)) :=
  match menu.mapM (fun n => (fit n).map (fun res => (n, res))) with
  | none => .error ()
  | some results =>
    match pyMax (fun nr => nr.2.metrics.roc_auc) results with
    | none => .error ()
    | some best =>
      .ok ({ st with
             models := results
             best_model := some best.2.model
             best_model_name := some best.1 }, results)

/-- The Flask module-level state: the `NoShowPredictor` instance plus the
globals `model_results`, `X_test_global`, `y_test_global`.  The test-split
frames are opaque to this development and carried as tags. -/
structure ServerState where
  pred : PredictorState
  model_results : List (String × ModelResult)
  X_test_global : Option ℕ
  y_test_global : Option ℕ

/-- Embeds the `/train` route `train_model` (lines 743-771) from the point
where the data pipeline (generation, feature engineering, sklearn
`train_test_split`) has produced a train/test split: `prepare_features` with
`fit_encoders=True` refits the Gender encoder from the training data's Gender
column (`trainGenders`), the new test split is stored into the globals, and
only then does `train_models` run.  An exception from a fit is caught by the
route's `except` block, returning an error response (`false`); a success also
replaces `model_results` (`true`). -/
def train_model_route (fit : String → Option ModelResult)
    (trainGenders : List String) (newXtest newYtest : ℕ) (s : ServerState) :
    ServerState × Bool :=
  let predFit := { s.pred with gender_encoder := some (labelEncoderFit trainGenders) }
  let s1 := { s with
              pred := predFit
              X_test_global := some newXtest
              y_test_global := some newYtest }
  match train_models fit predFit with
  | .error _ => (s1, false)
  | .ok (pred2, results) => ({ s1 with pred := pred2, model_results := results }, true)

/-- A concrete fitted classifier for concrete instances: constant probability
one half, constant hard label 0. -/
def constModel : Model :=
  { predict_proba := fun _ => 1/2, predict := fun _ => 0 }

/-- A concrete per-algorithm result built around `constModel`. -/
def constResult (auc : ℚ) : ModelResult :=
  { model := constModel,
    metrics := { accuracy := 1/2, precision := 1/2, «recall» := 1/2, f1 := 1/2,
                 roc_auc := auc },
    predictions := [0], probabilities := [1/2] }

/-- A concrete record carrying every field, with the unseen Gender `"X"`. -/
def fullRecordX : PatientRecord :=
  { Age := 35, Gender := "X", Scholarship := 0, Hipertension := 0, Diabetes := 0,
    Alcoholism := 0, Handcap := 0, SMS_received := 1, days_between := 5,
    scheduled_weekday := some 1, appointment_weekday := some 1,
    total_conditions := some 0, risk_score := some (1/20), is_weekend := some 0 }

/-- A concrete record carrying only the raw dashboard fields: the weekday and
engineered columns are absent. -/
def rawOnlyRecord : PatientRecord :=
  { Age := 35, Gender := "F", Scholarship := 0, Hipertension := 0, Diabetes := 0,
    Alcoholism := 0, Handcap := 0, SMS_received := 1, days_between := 5,
    scheduled_weekday := none, appointment_weekday := none,
    total_conditions := none, risk_score := none, is_weekend := none }

/-- A concrete trained predictor state whose encoder saw `F` and `M`. -/
def trainedStateFM : PredictorState :=
  { models := [("Random Forest", constResult (7/10))],
    best_model := some constModel, best_model_name := some "Random Forest",
    gender_encoder := some ["F", "M"] }

/-- A concrete predictor state before any training run. -/
def untrainedState : PredictorState :=
  { models := [], best_model := none, best_model_name := none,
    gender_encoder := none }

/-- A concrete trained predictor state whose encoder was fitted (via
`labelEncoderFit`) on a Gender column containing `F` and `M`. -/
def trainedStateFitFM : PredictorState :=
  { models := [("Random Forest", constResult (7/10))],
    best_model := some constModel, best_model_name := some "Random Forest",
    gender_encoder := some (labelEncoderFit ["F", "M", "F"]) }

/-- A concrete per-algorithm fit outcome that raises on every menu entry but
the first, modelling a training run failing partway through the menu. -/
def failFit : String → Option ModelResult :=
  fun n => if n = "Random Forest" then some (constResult 1) else none

/-- A concrete fit outcome with an exact tie in `roc_auc` between the second
and third menu entries, both strictly above the others. -/
def tieFit : String → Option ModelResult :=
  fun n =>
    if n = "Random Forest" then some (constResult 0)
    else if n = "Gradient Boosting" then some (constResult 1)
    else if n = "Logistic Regression" then some (constResult 1)
    else some (constResult 0)

/-- A concrete server state left by a previous successful run, with test
split tag 0. -/
def serverState0 : ServerState :=
  { pred := trainedStateFM,
    model_results := [("Random Forest", constResult (7/10))],
    X_test_global := some 0, y_test_global := some 0 }

/-- The draw primitives of numpy's global RNG as used by
`load_and_clean_data`, abstracted over the stream semantics: each primitive
is a pure function of its distribution parameters and the current RNG state,
returning the drawn values and the successor state; `np.random.seed s`
resets the state to `seed s`.  The generator's determinism holds for every
such semantics because it reseeds at entry. -/
structure DrawFns where
  seed : ℕ → ℕ
  exponential : ℚ → ℕ → ℕ → List ℚ × ℕ
  choiceStr : List String → ℕ → ℕ → List String × ℕ
  choiceRange : ℕ → ℕ → ℕ → List ℕ × ℕ
  choiceWeighted : List ℕ → List ℚ → ℕ → ℕ → List ℕ × ℕ
  binomial : ℚ → ℕ → ℕ → List ℕ × ℕ
  binomialV : List ℚ → ℕ → ℕ → List ℕ × ℕ
  randint : ℤ → ℤ → ℕ → ℕ → List ℤ × ℕ
  randintScalar : ℤ → ℤ → ℕ → ℤ × ℕ

/-- One generated appointment record (the dataframe row of lines 90-111).
`ScheduledDay` and `AppointmentDay` are day offsets from the base date
2016-04-29. -/
structure DataRow where
  PatientId : ℤ
  AppointmentID : ℤ
  Gender : String
  Age : ℤ
  Neighbourhood : String
  Scholarship : ℕ
  Hipertension : ℕ
  Diabetes : ℕ
  Alcoholism : ℕ
  Handcap : ℕ
  SMS_received : ℕ
  days_between : ℤ
  scheduled_weekday : ℕ
  appointment_weekday : ℕ
  no_show : ℕ
  ScheduledDay : ℤ
  AppointmentDay : ℤ
deriving DecidableEq

/-- Runs a scalar draw `count` times threading the RNG state (the per-row
list comprehension for `ScheduledDay`, line 110). -/
def drawScalars (f : ℕ → ℤ × ℕ) : ℕ → ℕ → List ℤ × ℕ
  | 0, g => ([], g)
  | m + 1, g =>
    let p := f g
    let rest := drawScalars f m p.2
    (p.1 :: rest.1, rest.2)

/-- Embeds `DataPreprocessor.load_and_clean_data` (lines 32-118),
parameterized over the RNG semantics `d`, the incoming global RNG state
`rng`, and the `filepath` argument (which the source never reads: the data is
synthesized).  The source fixes `n_samples = 10000` and the seed literal 42
inline; they are exposed here as parameters so the generator's determinism
can be stated for every record count and seed (`load_and_clean_data` below
instantiates the source's constants).  Vectorized numpy arithmetic becomes
element-wise arithmetic over the drawn lists; `astype(int)` on the clipped
non-negative draws is `Int.floor`.  Returns the table and the final RNG
state. -/
def load_and_clean_data_gen (d : DrawFns) (n_samples seedVal : ℕ)
    (rng : ℕ) (filepath : String) : List DataRow × ℕ :=
  let g0 := d.seed seedVal
  let (agesRaw, g1) := d.exponential 25 n_samples g0
  let ages : List ℤ := agesRaw.map (fun a => ⌊clipQ a 0 95⌋)
  let (genders, g2) := d.choiceStr ["M", "F"] n_samples g1
  let age_factor : List ℚ := ages.map (fun a => (a : ℚ) / 100)
  let (hipertension, g3) := d.binomialV
    (age_factor.map (fun f => clipQ (f * (4/10) + 1/10) 0 (8/10))) n_samples g2
  let (diabetes, g4) := d.binomialV
    (age_factor.map (fun f => clipQ (f * (3/10) + 1/20) 0 (4/10))) n_samples g3
  let (alcoholism, g5) := d.binomial (1/20) n_samples g4
  let (scholarship, g6) := d.binomialV
    (age_factor.map (fun f => clipQ (3/10 - f * (2/10)) (1/20) (3/10))) n_samples g5
  let (handcap, g7) := d.choiceWeighted [0, 1, 2, 3, 4]
    [92/100, 5/100, 2/100, 8/1000, 2/1000] n_samples g6
  let (sms_received, g8) := d.binomial (68/100) n_samples g7
  let (daysRaw, g9) := d.exponential 7 n_samples g8
  let days_between : List ℤ := daysRaw.map (fun x => ⌊clipQ x 0 179⌋)
  let (scheduled_weekday, g10) := d.choiceRange 7 n_samples g9
  let (appointment_weekday, g11) := d.choiceRange 7 n_samples g10
  let no_show_prob : List ℚ := (List.range n_samples).map (fun i =>
    let a := ages.getD i 0
    let age_effect : ℚ := if a < 18 then 3/20 else if 65 < a then -(1/20) else 0
    let sms_effect : ℚ := if sms_received.getD i 0 = 0 then 1/4 else -(1/20)
    let days_effect : ℚ := clipQ ((days_between.getD i 0 : ℚ) * (1/100)) 0 (3/10)
    let health_effect : ℚ :=
      -(((hipertension.getD i 0 : ℚ) + (diabetes.getD i 0 : ℚ)) * (1/20))
    let weekend_effect : ℚ :=
      if appointment_weekday.getD i 0 = 5 ∨ appointment_weekday.getD i 0 = 6
        then 1/10 else 0
    let scholarship_effect : ℚ := if scholarship.getD i 0 = 1 then 2/25 else 0
    clipQ (1/5 + age_effect + sms_effect + days_effect + health_effect
      + weekend_effect + scholarship_effect) (1/20) (17/20))
  let (no_show, g12) := d.binomialV no_show_prob n_samples g11
  let (patientId, g13) := d.randint 1000000 9999999 n_samples g12
  let (appointmentId, g14) := d.randint 5000000 6000000 n_samples g13
  let (neighbourhood, g15) := d.choiceStr
    ["JARDIM DA PENHA", "MATA DA PRAIA", "PONTAL DE CAMBURI"] n_samples g14
  let sched := drawScalars (d.randintScalar (-30) 1) n_samples g15
  let scheduledDay : List ℤ := sched.1
  let rows : List DataRow := (List.range n_samples).map (fun i =>
    { PatientId := patientId.getD i 0
      AppointmentID := appointmentId.getD i 0
      Gender := genders.getD i ""
      Age := ages.getD i 0
      Neighbourhood := neighbourhood.getD i ""
      Scholarship := scholarship.getD i 0
      Hipertension := hipertension.getD i 0
      Diabetes := diabetes.getD i 0
      Alcoholism := alcoholism.getD i 0
      Handcap := handcap.getD i 0
      SMS_received := sms_received.getD i 0
      days_between := days_between.getD i 0
      scheduled_weekday := scheduled_weekday.getD i 0
      appointment_weekday := appointment_weekday.getD i 0
      no_show := no_show.getD i 0
      ScheduledDay := scheduledDay.getD i 0
      AppointmentDay := scheduledDay.getD i 0 + days_between.getD i 0 })
  (rows, sched.2)

/-- `load_and_clean_data` with the source's inline constants: 10000 records,
seed 42. -/
def load_and_clean_data (d : DrawFns) (rng : ℕ) (filepath : String) :
    List DataRow × ℕ :=
  load_and_clean_data_gen d 10000 42 rng filepath

/-- A concrete RNG semantics for witnesses: every draw returns its first
candidate (or a constant) and bumps the state. -/
def constDraws : DrawFns :=
  { seed := fun s => s
    exponential := fun _ size g => (List.replicate size 1, g + 1)
    choiceStr := fun opts size g => (List.replicate size (opts.getD 0 ""), g + 1)
    choiceRange := fun _ size g => (List.replicate size 0, g + 1)
    choiceWeighted := fun vals _ size g => (List.replicate size (vals.getD 0 0), g + 1)
    binomial := fun _ size g => (List.replicate size 0, g + 1)
    binomialV := fun _ size g => (List.replicate size 0, g + 1)
    randint := fun lo _ size g => (List.replicate size lo, g + 1)
    randintScalar := fun lo _ g => (lo, g + 1) }

end NoShow

namespace NoShow

/-- C1 counterexample: the code's `pd.cut` bucketing is right-closed, not
half-open as claimed: age 18 maps to `child` (not `young_adult`), age 65 maps
to `middle_aged` (not `senior`), and age 0 maps to no bucket at all, so the
map is not total on `[0,95]`. -/
theorem age_group_pd_cut_boundaries_cex :
    age_group 18 = some "child" ∧ age_group 65 = some "middle_aged" ∧
      age_group 0 = none :=
  ⟨by decide, by decide, by decide⟩

/-- C1 (amended): age bucketing uses left-open right-closed bins
`(0,18] child, (18,35] young_adult, (35,50] adult, (50,65] middle_aged,
(65,100] senior`; every integer age in `[1,95]` maps to exactly one of the
five buckets, age 18 maps to `child`, age 65 to `middle_aged`, and age 0 to
no bucket. -/
theorem age_group_right_closed_total (age : ℤ) (h1 : 1 ≤ age) (h95 : age ≤ 95) :
    (∃ b, age_group age = some b ∧
        b ∈ ["child", "young_adult", "adult", "middle_aged", "senior"]) ∧
      age_group 18 = some "child" ∧ age_group 65 = some "middle_aged" ∧
      age_group 0 = none := by
  refine ⟨?_, by decide, by decide, by decide⟩
  unfold age_group
  split
  · exact ⟨"child", rfl, by simp⟩
  · split
    · exact ⟨"young_adult", rfl, by simp⟩
    · split
      · exact ⟨"adult", rfl, by simp⟩
      · split
        · exact ⟨"middle_aged", rfl, by simp⟩
        · split
          · exact ⟨"senior", rfl, by simp⟩
          · omega

/-- Witness for `age_group_right_closed_total` at age 42. -/
theorem age_group_right_closed_total_witness :
    (∃ b, age_group 42 = some b ∧
        b ∈ ["child", "young_adult", "adult", "middle_aged", "senior"]) ∧
      age_group 18 = some "child" ∧ age_group 65 = some "middle_aged" ∧
      age_group 0 = none :=
  age_group_right_closed_total 42 (by decide) (by decide)

/-- C6: the risk tier is `High` iff `p > 0.6`, `Medium` iff `0.3 < p ≤ 0.6`,
`Low` iff `p ≤ 0.3`; in particular `p = 0.30` gives `Low`, `p = 0.30001`
gives `Medium`, `p = 0.60` gives `Medium`, `p = 0.60001` gives `High`. -/
theorem risk_level_thresholds :
    (∀ p : ℚ, (risk_level p = "High" ↔ 6/10 < p) ∧
        (risk_level p = "Medium" ↔ 3/10 < p ∧ p ≤ 6/10) ∧
        (risk_level p = "Low" ↔ p ≤ 3/10)) ∧
      risk_level (30/100) = "Low" ∧ risk_level (30001/100000) = "Medium" ∧
      risk_level (60/100) = "Medium" ∧ risk_level (60001/100000) = "High" := by
  refine ⟨fun p => ?_, by norm_num [risk_level], by norm_num [risk_level],
    by norm_num [risk_level], by norm_num [risk_level]⟩
  unfold risk_level
  by_cases h6 : 6/10 < p
  · simp only [if_pos h6]
    refine ⟨by simp [h6], ?_, ?_⟩
    · constructor
      · intro h; exact absurd h (by decide)
      · rintro ⟨-, hle⟩; exact absurd h6 (not_lt.mpr hle)
    · constructor
      · intro h; exact absurd h (by decide)
      · intro hle; exact absurd h6 (by linarith)
  · simp only [if_neg h6]
    by_cases h3 : 3/10 < p
    · simp only [if_pos h3]
      refine ⟨⟨fun h => absurd h (by decide), fun h => absurd h h6⟩, ?_, ?_⟩
      · simp [h3, not_lt.mp h6]
      · constructor
        · intro h; exact absurd h (by decide)
        · intro hle; exact absurd h3 (by linarith)
    · simp only [if_neg h3]
      refine ⟨⟨fun h => absurd h (by decide), fun h => absurd h h6⟩, ?_, ?_⟩
      · constructor
        · intro h; exact absurd h (by decide)
        · rintro ⟨hgt, -⟩; exact absurd hgt h3
      · simp [not_lt.mp h3]

/-- C7: for non-negative `days_between` the engineered risk score equals
`0.3·[age<18] + 0.1·[age>80] + 0.4·(1−sms) + 0.3·min(days/30, 1)
 + 0.2·scholarship`, and the §8 scenario (age 10, no SMS, 40 days lead,
scholarship) scores exactly `1.2` with no clamping of the total. -/
theorem risk_score_formula (age sms days sch : ℤ) (hd : 0 ≤ days) :
    risk_score age sms days sch =
        (3/10) * (if age < 18 then 1 else 0) + (1/10) * (if 80 < age then 1 else 0)
          + (4/10) * (1 - (sms : ℚ)) + (3/10) * min ((days : ℚ) / 30) 1
          + (2/10) * (sch : ℚ) ∧
      risk_score 10 0 40 1 = 12/10 := by
  constructor
  · have hq : (0 : ℚ) ≤ (days : ℚ) / 30 := by positivity
    have hclip : clipQ ((days : ℚ) / 30) 0 1 = min ((days : ℚ) / 30) 1 :=
      max_eq_right (le_min hq zero_le_one)
    rw [risk_score, hclip]; ring
  · norm_num [risk_score, clipQ]

/-- Witness for `risk_score_formula` at the §8 scenario input. -/
theorem risk_score_formula_witness :
    risk_score 10 0 40 1 =
        (3/10) * (if (10:ℤ) < 18 then 1 else 0)
          + (1/10) * (if (80:ℤ) < 10 then 1 else 0)
          + (4/10) * (1 - ((0:ℤ) : ℚ)) + (3/10) * min (((40:ℤ) : ℚ) / 30) 1
          + (2/10) * (((1:ℤ) : ℚ)) ∧
      risk_score 10 0 40 1 = 12/10 :=
  risk_score_formula 10 0 40 1 (by decide)

/-- C10: when `SMS_received` and `Scholarship` lie in `{0,1}` and
`days_between ≥ 0`, the engineered risk score lies in `[0, 1.2]`: the two age
indicators are mutually exclusive and every term is bounded by its weight. -/
theorem risk_score_bounds (age sms days sch : ℤ)
    (hsms : sms = 0 ∨ sms = 1) (hsch : sch = 0 ∨ sch = 1) (hd : 0 ≤ days) :
    0 ≤ risk_score age sms days sch ∧ risk_score age sms days sch ≤ 12/10 := by
  have hc0 : (0 : ℚ) ≤ clipQ ((days : ℚ) / 30) 0 1 := le_max_left 0 _
  have hc1 : clipQ ((days : ℚ) / 30) 0 1 ≤ 1 := by
    unfold clipQ
    exact max_le (by norm_num) (min_le_right _ _)
  unfold risk_score
  rcases hsms with h | h <;> rcases hsch with h2 | h2 <;> subst h <;> subst h2 <;>
    by_cases ha : age < 18 <;>
      [skip; skip; skip; skip; skip; skip; skip; skip] <;>
    first
      | (have hb : ¬ (80 < age) := by omega
         simp only [if_pos ha, if_neg hb]
         push_cast
         constructor <;> nlinarith)
      | (simp only [if_neg ha]
         by_cases hb : 80 < age <;> simp only [if_pos, if_neg, hb] <;>
           push_cast <;> constructor <;> nlinarith)

/-- Witness for `risk_score_bounds` at the §8 scenario input. -/
theorem risk_score_bounds_witness :
    0 ≤ risk_score 10 0 40 1 ∧ risk_score 10 0 40 1 ≤ 12/10 :=
  risk_score_bounds 10 0 40 1 (Or.inl rfl) (Or.inr rfl) (by decide)

end NoShow

namespace NoShow

/-- The classes stored by a fit are exactly the values seen (sorted, unique),
so membership in the stored classes is membership in the fitted column. -/
theorem mem_labelEncoderFit {x : String} {xs : List String} :
    x ∈ labelEncoderFit xs ↔ x ∈ xs := by
  unfold labelEncoderFit
  rw [(List.perm_insertionSort _ _).mem_iff, List.mem_dedup]

/-- C2 counterexample: with an encoder fitted on a Gender column containing
`F` and `M`, the unseen value `X` is not mapped to a neutral fallback code:
`LabelEncoder.transform` raises, and single-record prediction on such a
record fails rather than succeeding. -/
theorem encode_gender_unseen_after_fit_cex :
    encodeGenderApply (some (labelEncoderFit ["F", "M", "F"])) "X" = none ∧
      predict_single trainedStateFitFM fullRecordX =
        .error (.badRecord .unseenGender) := by
  have hmem : "X" ∉ labelEncoderFit ["F", "M", "F"] := by
    rw [mem_labelEncoderFit]; decide
  have henc : encodeGenderApply (some (labelEncoderFit ["F", "M", "F"])) "X" = none := by
    simp only [encodeGenderApply, labelEncoderTransform, if_neg hmem]
  refine ⟨henc, ?_⟩
  simp only [predict_single, trainedStateFitFM, prepare_features_single,
    fullRecordX, henc]

/-- C2 (amended): the neutral fallback (`F`→0, `M`→1, anything else→0) is used
only when apply mode runs before any fit, and then encoding always succeeds;
once a Gender encoder has been fitted, any value outside its stored classes
raises (`LabelEncoder.transform`), and single-record prediction on such a
record fails instead of falling back. -/
theorem encode_gender_fallback_amended :
    (∀ g, encodeGenderApply none g = some (genderFallback g)) ∧
      (∀ classes g, g ∉ classes → encodeGenderApply (some classes) g = none) ∧
      (∀ st m r classes sw aw tc rs iw,
        st.best_model = some m → st.gender_encoder = some classes →
        r.Gender ∉ classes →
        r.scheduled_weekday = some sw → r.appointment_weekday = some aw →
        r.total_conditions = some tc → r.risk_score = some rs →
        r.is_weekend = some iw →
        predict_single st r = .error (.badRecord .unseenGender)) := by
  refine ⟨fun g => rfl, fun classes g h => ?_, ?_⟩
  · simp only [encodeGenderApply, labelEncoderTransform, if_neg h]
  · intro st m r classes sw aw tc rs iw hm henc hg hsw haw htc hrs hiw
    simp only [predict_single, hm, prepare_features_single, hsw, haw, htc, hrs,
      hiw, henc, encodeGenderApply, labelEncoderTransform, if_neg hg]

/-- Witness for `encode_gender_fallback_amended`: apply-before-fit falls back
on an arbitrary value, while an encoder that saw only `F` and `M` rejects
`X`. -/
theorem encode_gender_fallback_amended_witness :
    encodeGenderApply none "X" = some (genderFallback "X") ∧
      encodeGenderApply (some ["F", "M"]) "X" = none :=
  ⟨encode_gender_fallback_amended.1 "X",
   encode_gender_fallback_amended.2.1 ["F", "M"] "X" (by decide)⟩

/-- C3 counterexample: with a trained model retained, the single-record
predictor fails on a record containing only the raw fields: it never applies
feature engineering, so the column selection raises `KeyError` for the absent
engineered columns instead of computing them. -/
theorem predict_single_raw_only_cex :
    predict_single trainedStateFM rawOnlyRecord =
      .error (.badRecord .missingColumn) := rfl

/-- C3 (amended): `predict_single` performs no feature engineering: a record
carrying only the raw fields fails with the missing-column error, while a
record whose engineered fields are supplied (the dashboard computes them
client-side) and whose gender encodes yields the model's probability, its
binary decision and a three-tier risk label, the probability lying in `[0,1]`
whenever the model's `predict_proba` output does. -/
theorem predict_single_engineered_required :
    (∀ st m r, st.best_model = some m → r.risk_score = none →
      predict_single st r = .error (.badRecord .missingColumn)) ∧
      (∀ st m r X, st.best_model = some m →
        prepare_features_single st.gender_encoder r = .ok X →
        ∃ res, predict_single st r = .ok res ∧
          res.no_show_probability = m.predict_proba X ∧
          res.prediction = m.predict X ∧
          res.risk_level = risk_level (m.predict_proba X) ∧
          res.risk_level ∈ ["Low", "Medium", "High"] ∧
          (0 ≤ m.predict_proba X → m.predict_proba X ≤ 1 →
            0 ≤ res.no_show_probability ∧ res.no_show_probability ≤ 1)) := by
  constructor
  · intro st m r hm hrs
    unfold predict_single
    rw [hm]
    unfold prepare_features_single
    rw [hrs]
    cases r.scheduled_weekday <;> cases r.appointment_weekday <;>
      cases r.total_conditions <;> cases r.is_weekend <;> rfl
  · intro st m r X hm hX
    refine ⟨.mk (m.predict_proba X) (m.predict X) (risk_level (m.predict_proba X)),
      ?_, rfl, rfl, rfl, ?_, fun h0 h1 => ⟨h0, h1⟩⟩
    · unfold predict_single
      rw [hm, hX]
    · unfold risk_level
      split
      · simp
      · split <;> simp

/-- Witness for `predict_single_engineered_required`: the raw-only record
fails under a concretely trained state. -/
theorem predict_single_engineered_required_witness :
    predict_single trainedStateFitFM rawOnlyRecord =
      .error (.badRecord .missingColumn) :=
  predict_single_engineered_required.1 trainedStateFitFM constModel
    rawOnlyRecord rfl rfl

/-- C8: with no retained best model, `predict_single` fails with the
untrained-model error for every record — including records on which feature
preparation and encoding would themselves fail — because the check precedes
any feature computation. -/
theorem predict_single_untrained_first (st : PredictorState) (r : PatientRecord)
    (h : st.best_model = none) :
    predict_single st r = .error .untrained := by
  unfold predict_single
  rw [h]

/-- Witness for `predict_single_untrained_first` on a record whose feature
preparation would fail, showing the untrained check comes first. -/
theorem predict_single_untrained_first_witness :
    predict_single untrainedState rawOnlyRecord = .error .untrained :=
  predict_single_untrained_first untrainedState rawOnlyRecord rfl

end NoShow

namespace NoShow

/-- Behaviour of the scan underlying Python's `max`: the scan result dominates
the seed and every scanned element, and is either the seed itself or the
first scanned element strictly exceeding the seed and everything before it. -/
theorem pyMax_foldl_spec {α : Type} (k : α → ℚ) (xs : List α) (b : α) :
    (∀ z ∈ xs, k z ≤ k (xs.foldl (pyMaxStep k) b)) ∧
      k b ≤ k (xs.foldl (pyMaxStep k) b) ∧
      (xs.foldl (pyMaxStep k) b = b ∨
        ∃ i, xs.get? i = some (xs.foldl (pyMaxStep k) b) ∧
          k b < k (xs.foldl (pyMaxStep k) b) ∧
          ∀ z ∈ xs.take i, k z < k (xs.foldl (pyMaxStep k) b)) := by
  induction xs generalizing b with
  | nil =>
    exact ⟨fun z hz => absurd hz (List.not_mem_nil z), le_refl _, Or.inl rfl⟩
  | cons y ys ih =>
    simp only [List.foldl_cons]
    obtain ⟨ih1, ih2, ih3⟩ := ih (pyMaxStep k b y)
    have hby : k b ≤ k (pyMaxStep k b y) := by
      unfold pyMaxStep
      split
      · exact le_of_lt (by assumption)
      · exact le_refl _
    have hyy : k y ≤ k (pyMaxStep k b y) := by
      unfold pyMaxStep
      split
      · exact le_refl _
      · exact le_of_not_lt (by assumption)
    refine ⟨?_, le_trans hby ih2, ?_⟩
    · intro z hz
      rcases List.mem_cons.mp hz with hz | hz
      · rw [hz]
        exact le_trans hyy ih2
      · exact ih1 z hz
    · rcases ih3 with heq | ⟨i, hget, hlt, htake⟩
      · rw [heq]
        by_cases hbylt : k b < k y
        · right
          refine ⟨0, ?_, ?_, ?_⟩
          · simp [pyMaxStep, if_pos hbylt]
          · simpa [pyMaxStep, if_pos hbylt] using hbylt
          · intro z hz
            simp at hz
        · left
          simp [pyMaxStep, if_neg hbylt]
      · right
        refine ⟨i + 1, ?_, lt_of_le_of_lt hby hlt, ?_⟩
        · simpa using hget
        · intro z hz
          rw [List.take_succ_cons] at hz
          rcases List.mem_cons.mp hz with hz | hz
          · rw [hz]
            exact lt_of_le_of_lt hyy hlt
          · exact htake z hz

/-- Python's `max(l, key=k)` returns an element whose key is maximal, and all
elements strictly before it in `l` have strictly smaller keys: the
first-listed maximiser wins ties. -/
theorem pyMax_first_argmax {α : Type} (k : α → ℚ) (l : List α) (r : α)
    (h : pyMax k l = some r) :
    ∃ i, l.get? i = some r ∧ (∀ z ∈ l, k z ≤ k r) ∧
      ∀ z ∈ l.take i, k z < k r := by
  cases l with
  | nil => cases h
  | cons x xs =>
    have hr : xs.foldl (pyMaxStep k) x = r := by
      unfold pyMax at h
      exact Option.some_injective _ h
    obtain ⟨h1, h2, h3⟩ := pyMax_foldl_spec k xs x
    rw [hr] at h1 h2 h3
    rcases h3 with heq | ⟨i, hget, hlt, htake⟩
    · refine ⟨0, by simp [heq], ?_, ?_⟩
      · intro z hz
        rcases List.mem_cons.mp hz with hz | hz
        · rw [hz, heq]
        · exact h1 z hz
      · intro z hz
        simp at hz
    · refine ⟨i + 1, by simpa using hget, ?_, ?_⟩
      · intro z hz
        rcases List.mem_cons.mp hz with hz | hz
        · exact le_of_lt (hz ▸ hlt)
        · exact h1 z hz
      · intro z hz
        rw [List.take_succ_cons] at hz
        rcases List.mem_cons.mp hz with hz | hz
        · exact hz ▸ hlt
        · exact htake z hz

/-- A successful evaluation loop returns one result per menu entry, tagged
with the names in menu order. -/
theorem mapM_fit_names (fit : String → Option ModelResult) :
    ∀ (names : List String) (rs : List (String × ModelResult)),
      names.mapM (fun n => (fit n).map (fun res => (n, res))) = some rs →
      rs.map Prod.fst = names := by
  intro names
  induction names with
  | nil =>
    intro rs h
    simp only [List.mapM_nil] at h
    simp [← Option.some_injective _ h]
  | cons n ns ih =>
    intro rs h
    rw [List.mapM_cons] at h
    cases hfn : fit n with
    | none =>
      rw [hfn] at h
      simp at h
    | some res =>
      rw [hfn] at h
      cases hns : ns.mapM (fun n => (fit n).map (fun res => (n, res))) with
      | none =>
        rw [hns] at h
        simp at h
      | some ys =>
        rw [hns] at h
        simp at h
        rw [← h]
        simp [ih ys hns]

/-- C5: after every successful training run, the evaluated results follow the
fixed menu order, and the retained best model and best-model name come from
the evaluated entry whose roc_auc is maximal, an exact tie going to the
first-evaluated algorithm in menu order, so selection is deterministic. -/
theorem train_models_selects_first_max
    (fit : String → Option ModelResult) (st st2 : PredictorState)
    (results : List (String × ModelResult))
    (h : train_models fit st = .ok (st2, results)) :
    results.map Prod.fst = menu ∧ st2.models = results ∧
      ∃ i nr, results.get? i = some nr ∧
        st2.best_model_name = some nr.1 ∧ st2.best_model = some nr.2.model ∧
        (∀ y ∈ results, y.2.metrics.roc_auc ≤ nr.2.metrics.roc_auc) ∧
        ∀ y ∈ results.take i, y.2.metrics.roc_auc < nr.2.metrics.roc_auc := by
  unfold train_models at h
  cases hmap : menu.mapM (fun n => (fit n).map (fun res => (n, res))) with
  | none =>
    rw [hmap] at h
    cases h
  | some rs =>
    simp only [hmap] at h
    cases hbest : pyMax (fun nr => nr.2.metrics.roc_auc) rs with
    | none =>
      rw [hbest] at h
      cases h
    | some best =>
      rw [hbest] at h
      simp only [Except.ok.injEq, Prod.mk.injEq] at h
      obtain ⟨hst, hres⟩ := h
      subst hst
      subst hres
      obtain ⟨i, hget, hmax, htake⟩ :=
        pyMax_first_argmax (fun nr => nr.2.metrics.roc_auc) rs best hbest
      exact ⟨mapM_fit_names fit menu rs hmap, rfl,
        i, best, hget, rfl, rfl, hmax, htake⟩

/-- Witness for `train_models_selects_first_max`: with an exact roc_auc tie
between the second and third menu entries, a run from the untrained state
succeeds and the theorem applies; the retained name is the first-evaluated
maximiser, Gradient Boosting. -/
theorem train_models_selects_first_max_witness :
    ∃ st2 results, train_models tieFit untrainedState = .ok (st2, results) ∧
      st2.best_model_name = some "Gradient Boosting" ∧
      (results.map Prod.fst = menu ∧ st2.models = results ∧
        ∃ i nr, results.get? i = some nr ∧
          st2.best_model_name = some nr.1 ∧ st2.best_model = some nr.2.model ∧
          (∀ y ∈ results, y.2.metrics.roc_auc ≤ nr.2.metrics.roc_auc) ∧
          ∀ y ∈ results.take i, y.2.metrics.roc_auc < nr.2.metrics.roc_auc) :=
  ⟨_, _, rfl, rfl, train_models_selects_first_max tieFit untrainedState _ _ rfl⟩

/-- C4 counterexample: a run that raises at the second menu entry answers
with an error, yet the held-out test globals already hold the new run's test
split (tag 1), not the previous one (tag 0): the previously retained state is
not left entirely unchanged by a failed run. -/
theorem train_route_test_globals_cex :
    (train_model_route failFit ["F", "M"] 1 1 serverState0).2 = false ∧
      (train_model_route failFit ["F", "M"] 1 1 serverState0).1.X_test_global
        = some 1 ∧
      serverState0.X_test_global = some 0 ∧
      (train_model_route failFit ["F", "M"] 1 1 serverState0).1.X_test_global
        ≠ serverState0.X_test_global :=
  ⟨rfl, rfl, rfl, by decide⟩

/-- C4 (amended): when a fit raises partway through the menu, the route
answers with an error and the retained best model, best-model name, the
predictor's per-algorithm results and the global model results are exactly as
before the run — no partially updated model set is observable — but the
held-out test globals have already been replaced with the new run's split
(and the gender encoder has been refitted) before training began. -/
theorem train_route_failure_preserves_model_state
    (fit : String → Option ModelResult) (gs : List String) (nx ny : ℕ)
    (s : ServerState) (h : (train_model_route fit gs nx ny s).2 = false) :
    (train_model_route fit gs nx ny s).1.pred.best_model = s.pred.best_model ∧
      (train_model_route fit gs nx ny s).1.pred.best_model_name =
        s.pred.best_model_name ∧
      (train_model_route fit gs nx ny s).1.pred.models = s.pred.models ∧
      (train_model_route fit gs nx ny s).1.model_results = s.model_results ∧
      (train_model_route fit gs nx ny s).1.X_test_global = some nx ∧
      (train_model_route fit gs nx ny s).1.y_test_global = some ny := by
  rcases htr : train_models fit
      { s.pred with gender_encoder := some (labelEncoderFit gs) } with e | pr
  · simp only [train_model_route, htr]
    simp
  · exfalso
    simp only [train_model_route, htr] at h
    cases h

/-- Witness for `train_route_failure_preserves_model_state` at the concrete
failing run of the counterexample. -/
theorem train_route_failure_preserves_model_state_witness :
    (train_model_route failFit ["F", "M"] 1 1 serverState0).1.pred.best_model
        = serverState0.pred.best_model ∧
      (train_model_route failFit ["F", "M"] 1 1 serverState0).1.pred.best_model_name
        = serverState0.pred.best_model_name ∧
      (train_model_route failFit ["F", "M"] 1 1 serverState0).1.pred.models
        = serverState0.pred.models ∧
      (train_model_route failFit ["F", "M"] 1 1 serverState0).1.model_results
        = serverState0.model_results ∧
      (train_model_route failFit ["F", "M"] 1 1 serverState0).1.X_test_global
        = some 1 ∧
      (train_model_route failFit ["F", "M"] 1 1 serverState0).1.y_test_global
        = some 1 :=
  train_route_failure_preserves_model_state failFit ["F", "M"] 1 1 serverState0 rfl

end NoShow

namespace NoShow

/-- C9: the synthetic data generator is deterministic and independent of its
filepath argument: for every RNG semantics, record count N ≥ 1, seed value,
incoming global RNG states and filepaths, two invocations produce identical
tables (and identical final RNG states), because the function reseeds the
global RNG at entry and never reads the filepath.  The same holds for the
source's fixed instantiation (10000 records, seed 42). -/
theorem load_and_clean_data_deterministic (d : DrawFns) (n seedVal : ℕ)
    (hn : 1 ≤ n) (rng1 rng2 : ℕ) (fp1 fp2 : String) :
    load_and_clean_data_gen d n seedVal rng1 fp1 =
        load_and_clean_data_gen d n seedVal rng2 fp2 ∧
      load_and_clean_data d rng1 fp1 = load_and_clean_data d rng2 fp2 :=
  ⟨rfl, rfl⟩

/-- Witness for `load_and_clean_data_deterministic` at a concrete RNG
semantics, record count 1, seed 42, distinct incoming states and distinct
filepaths. -/
theorem load_and_clean_data_deterministic_witness :
    load_and_clean_data_gen constDraws 1 42 0 "synthetic_data.csv" =
        load_and_clean_data_gen constDraws 1 42 5 "other.csv" ∧
      load_and_clean_data constDraws 0 "synthetic_data.csv" =
        load_and_clean_data constDraws 5 "other.csv" :=
  load_and_clean_data_deterministic constDraws 1 42 (by decide) 0 5
    "synthetic_data.csv" "other.csv"

end NoShow
